import Mathlib

/-!
# Verification of the tcp_probe_plus flow-sampling core

Shallow embedding of `src/jprobe.c` (the two jprobe handlers
`jtcp_rcv_established` and `jtcp_done`, and the shared `write_flow`
producer) together with theorems checking the natural-language
specification against that code.

Machine integers are modelled as `Nat` with explicit reductions modulo
`2^32` / `2^64` where the C arithmetic wraps.  Kernel timestamps
(`ktime_t`) are modelled as nanosecond counts.  Port numbers are kept in
host byte order throughout, so the C source's `ntohs` conversions become
the identity.  The table spinlock of the hot path is modelled by an
explicit `lock_busy : Bool` oracle telling whether the purge sweep holds
the lock when the handler runs: `spin_trylock` fails exactly when
`lock_busy = true`, while a blocking `spin_lock` waits the sweep out and
then proceeds, so a blocking acquisition ignores `lock_busy`.
-/

namespace TcpProbe

/-- `UINT32_MAX` as used by `jprobe.c` in the wraparound branch. -/
def UINT32_MAX : Nat := 4294967295

/-- `UINT16_MAX`: the sentinel segment length written by `jtcp_done`. -/
def UINT16_MAX : Nat := 65535

/-- Modulus of 32-bit arithmetic. -/
def U32_MOD : Nat := 4294967296

/-- Modulus of 64-bit arithmetic (`cumulative_bytes` is a `u64`). -/
def U64_MOD : Nat := 18446744073709551616

/-- `struct tcp_tuple`: the order-sensitive 4-tuple flow identity. -/
structure TcpTuple where
  saddr : Nat
  daddr : Nat
  sport : Nat
  dport : Nat
deriving DecidableEq, Repr

/-- The fields of `struct tcp_sock` (plus the enclosing `struct sock`)
that the probe reads.  `sk_state_listen` models `sk->sk_state == TCP_LISTEN`.
`srtt_us` and `rttvar_us` are pre-shift, as stored in the socket. -/
structure TcpSockSnap where
  snd_nxt : Nat
  snd_una : Nat
  snd_cwnd : Nat
  snd_wnd : Nat
  srtt_us : Nat
  rttvar_us : Nat
  lost_out : Nat
  total_retrans : Nat
  packets_out : Nat
  frto : Nat
  rcv_nxt : Nat
  copied_seq : Nat
  write_seq : Nat
  sk_state_listen : Bool
  sk_ack_backlog : Nat
  sk_max_ack_backlog : Nat
deriving DecidableEq, Repr

/-- `struct tcp_hash_flow`: the per-flow state kept in the hash table.
The intrusive `hlist`/`list` membership is represented by membership in
the `flows` list of the global state. -/
structure TcpHashFlow where
  tuple : TcpTuple
  tstamp : Nat
  first_seq_num : Nat
  last_seq_num : Nat
  cumulative_bytes : Nat
deriving DecidableEq, Repr

/-- `struct tcp_log`: one record slot of the ring, exactly the fields
`write_flow` fills in. -/
structure TcpLog where
  tstamp : Nat
  saddr : Nat
  sport : Nat
  daddr : Nat
  dport : Nat
  length : Nat
  snd_nxt : Nat
  snd_una : Nat
  snd_cwnd : Nat
  snd_wnd : Nat
  ssthresh : Nat
  srtt : Nat
  rttvar : Nat
  lost : Nat
  retrans : Nat
  inflight : Nat
  rto : Nat
  frto_counter : Nat
  rqueue : Nat
  wqueue : Nat
  socket_idf : Nat
deriving DecidableEq, Repr

/-- The statistics bank (`struct tcpprobe_stat`), restricted to the
counters the embedded code touches.  Per-CPU banks summed on read are
modelled as a single bank, which is the summed view. -/
structure TcpprobeStat where
  ack_drop_ring_full : Nat
  ack_drop_purge : Nat
  conn_maxflow_limit : Nat
  reset_flows : Nat
deriving DecidableEq, Repr

/-- The module-global mutable state: the ring (`tcp_probe`), the flow
table (`tcp_hash` plus `tcp_flow_list`), the flow counter and the stats.
The ring's occupied slots from `tail` to `head` are represented as the
list `log` in push order: pushes are gated on `tcp_probe_avail > 1`, so
the head never laps the tail and no occupied slot is ever overwritten,
which makes the append-list view faithful to the array. -/
structure ProbeState where
  log : List TcpLog
  head : Nat
  tail : Nat
  lastcwnd : Nat
  flows : List TcpHashFlow
  flow_count : Nat
  stat : TcpprobeStat
deriving DecidableEq, Repr

/-- The module parameters, immutable after load: `port`, `full`,
`probetime` (ms), `maxflows`, `bufsize` (ring capacity, a power of two). -/
structure Config where
  port : Nat
  full : Bool
  probetime : Nat
  maxflows : Nat
  bufsize : Nat
deriving DecidableEq, Repr

/-- `tcp_flow_find`: hash-table lookup by tuple.  The hash only selects a
bucket; membership is decided by tuple equality, so the table is modelled
as lookup in the flow list. -/
def tcp_flow_find (tuple : TcpTuple) (flows : List TcpHashFlow) : Option TcpHashFlow :=
  flows.find? (fun f => decide (f.tuple = tuple))

/-- In-place mutation of the flow with the given tuple, as the C code
does through the pointer returned by `tcp_flow_find`. -/
def replace_flow (tuple : TcpTuple) (new : TcpHashFlow) (flows : List TcpHashFlow) :
    List TcpHashFlow :=
  flows.map (fun f => if f.tuple = tuple then new else f)

/-- The cumulative-byte / last-sequence-number update block, duplicated
verbatim at `jprobe.c:272-279` (`jtcp_done`) and `jprobe.c:388-395`
(`jtcp_rcv_established`):

    if (tp->snd_nxt > tcp_flow->last_seq_num)
        tcp_flow->cumulative_bytes += (tp->snd_nxt - tcp_flow->last_seq_num);
    else if (tp->snd_nxt != tcp_flow->last_seq_num)
        tcp_flow->cumulative_bytes += ((UINT32_MAX - tcp_flow->last_seq_num) + tp->snd_nxt);
    tcp_flow->last_seq_num = tp->snd_nxt;

`cumulative_bytes` is a `u64`, hence the reduction modulo `U64_MOD`. -/
def update_cumulative_bytes (flow : TcpHashFlow) (snd_nxt : Nat) : TcpHashFlow :=
  let flow :=
    if snd_nxt > flow.last_seq_num then
      { flow with cumulative_bytes :=
          (flow.cumulative_bytes + (snd_nxt - flow.last_seq_num)) % U64_MOD }
    else if snd_nxt ≠ flow.last_seq_num then
      { flow with cumulative_bytes :=
          (flow.cumulative_bytes + ((UINT32_MAX - flow.last_seq_num) + snd_nxt)) % U64_MOD }
    else flow
  { flow with last_seq_num := snd_nxt }

/-- Modelled from the spec: `tcp_probe_used` is defined in the project
header `tcp_probe_plus.h`, which is not under `src/`.  Per §3 the ring
has wrapped producer/consumer indices, and occupancy is the index
distance `head − tail` taken in the circular index space. -/
def tcp_probe_used (s : ProbeState) (bufsize : Nat) : Nat :=
  (s.head + bufsize - s.tail % bufsize) % bufsize

/-- Modelled from the spec: `tcp_probe_avail` is defined in the project
header `tcp_probe_plus.h`, which is not under `src/`.  §3 of the spec
gives: "slots available" = `C − (head − tail)`. -/
def tcp_probe_avail (s : ProbeState) (bufsize : Nat) : Nat :=
  bufsize - tcp_probe_used s bufsize

/-- The record `write_flow` stores into the slot at `head`
(`jprobe.c:152-196`).  `cumulative_bytes` is stored in the record's
`snd_nxt` field, `first_seq_seen` in `socket_idf`; `srtt`/`rttvar` are
the socket values shifted right by 3; `rto = srtt + 4*rttvar`; the queue
depths follow the `tcp_diag` method, with the non-listen `rqueue` being
`max(rcv_nxt - copied_seq, 0)` (truncated `Nat` subtraction) and `wqueue`
the 32-bit difference `write_seq - snd_una`. -/
def mk_tcp_log (tuple : TcpTuple) (tp : TcpSockSnap) (tstamp : Nat)
    (cumulative_bytes : Nat) (length : Nat) (ssthresh : Nat)
    (first_seq_seen : Nat) : TcpLog :=
  { tstamp := tstamp
    saddr := tuple.saddr
    sport := tuple.sport
    daddr := tuple.daddr
    dport := tuple.dport
    length := length
    snd_nxt := cumulative_bytes
    snd_una := tp.snd_una
    snd_cwnd := tp.snd_cwnd
    snd_wnd := tp.snd_wnd
    ssthresh := ssthresh
    srtt := tp.srtt_us / 8
    rttvar := tp.rttvar_us / 8
    lost := tp.lost_out
    retrans := tp.total_retrans
    inflight := tp.packets_out
    rto := tp.srtt_us / 8 + 4 * (tp.rttvar_us / 8)
    frto_counter := tp.frto
    rqueue := if tp.sk_state_listen then tp.sk_ack_backlog
              else tp.rcv_nxt - tp.copied_seq
    wqueue := if tp.sk_state_listen then tp.sk_max_ack_backlog
              else (tp.write_seq + U32_MOD - tp.snd_una % U32_MOD) % U32_MOD
    socket_idf := first_seq_seen }

/-- `write_flow` (`jprobe.c:144-204`): if more than one slot is
available, fill the slot at `head` and advance `head` modulo `bufsize`;
otherwise silently drop the record and count `ack_drop_ring_full`.  In
either case `tcp_probe.lastcwnd` is set to the socket's `snd_cwnd`
(the store at `jprobe.c:202` is outside the availability check). -/
def write_flow (cfg : Config) (tuple : TcpTuple) (tp : TcpSockSnap)
    (tstamp : Nat) (cumulative_bytes : Nat) (length : Nat) (ssthresh : Nat)
    (first_seq_seen : Nat) (s : ProbeState) : ProbeState :=
  let s :=
    if tcp_probe_avail s cfg.bufsize > 1 then
      { s with
        log := s.log ++
          [mk_tcp_log tuple tp tstamp cumulative_bytes length ssthresh first_seq_seen]
        head := (s.head + 1) % cfg.bufsize }
    else
      { s with stat :=
          { s.stat with ack_drop_ring_full := s.stat.ack_drop_ring_full + 1 } }
  { s with lastcwnd := tp.snd_cwnd }

/-- The `if (should_write_flow)` block of `jtcp_rcv_established`
(`jprobe.c:387-406`): apply the cumulative-byte update to the flow in the
table, then push a record built from the updated running total. -/
def should_write_flow_block (cfg : Config) (tuple : TcpTuple) (tp : TcpSockSnap)
    (ssthresh : Nat) (skb_len : Nat) (tstamp : Nat) (flow : TcpHashFlow)
    (s : ProbeState) : ProbeState :=
  let flow := update_cumulative_bytes flow tp.snd_nxt
  let cumulative_bytes := flow.cumulative_bytes
  let s := { s with flows := replace_flow tuple flow s.flows }
  write_flow cfg tuple tp tstamp cumulative_bytes skb_len ssthresh
    flow.first_seq_num s

/-- The freshly created flow state of the table-miss branch of
`jtcp_rcv_established` (`jprobe.c:373-375`): `first_seq_num` and the
timestamp are recorded from the event.  The zeroed accounting fields are
modelled from the spec, see `jtcp_rcv_established`. -/
def new_flow (tuple : TcpTuple) (tstamp : Nat) (snd_nxt : Nat) : TcpHashFlow :=
  { tuple := tuple, tstamp := tstamp, first_seq_num := snd_nxt,
    last_seq_num := 0, cumulative_bytes := 0 }

/-- `jtcp_rcv_established` (`jprobe.c:311-412`).  The port filter and the
congestion-window change gate (`full || tp->snd_cwnd != tcp_probe.lastcwnd`)
are checked first; then the table lock is tried non-blockingly
(`spin_trylock`, failing iff `lock_busy`); a miss in the table creates a
flow (subject to the `maxflows` admission bound) with
`first_seq_num = tp->snd_nxt` and marks it for writing; a hit marks the
flow for writing iff at least `probetime` milliseconds elapsed since the
flow's stored timestamp, refreshing that timestamp.

The flow-creation internals (`init_tcp_hash_flow`) live in a file not
under `src/`; modelled from the spec: a fresh FlowState starts with
zeroed byte accounting (§8: a re-created flow's `cumulativeBytes` is
"reset", the running total restarting from that one observation), and the
global atomic flow counter increments on create (§4.1). -/
def jtcp_rcv_established (cfg : Config) (lock_busy : Bool) (tuple : TcpTuple)
    (tp : TcpSockSnap) (ssthresh : Nat) (skb_len : Nat) (tstamp : Nat)
    (s : ProbeState) : ProbeState :=
  if (cfg.port = 0 ∨ tuple.dport = cfg.port ∨ tuple.sport = cfg.port) ∧
     (cfg.full = true ∨ tp.snd_cwnd ≠ s.lastcwnd) then
    if lock_busy then
      { s with stat := { s.stat with ack_drop_purge := s.stat.ack_drop_purge + 1 } }
    else
      match tcp_flow_find tuple s.flows with
      | none =>
        if cfg.maxflows > 0 ∧ s.flow_count ≥ cfg.maxflows then
          { s with stat :=
              { s.stat with conn_maxflow_limit := s.stat.conn_maxflow_limit + 1 } }
        else
          let flow : TcpHashFlow := new_flow tuple tstamp tp.snd_nxt
          let s := { s with flows := flow :: s.flows, flow_count := s.flow_count + 1 }
          should_write_flow_block cfg tuple tp ssthresh skb_len tstamp flow s
      | some flow =>
        let milliseconds := (tstamp - flow.tstamp) / 1000000
        if milliseconds ≥ cfg.probetime then
          let flow := { flow with tstamp := tstamp }
          let s := { s with flows := replace_flow tuple flow s.flows }
          should_write_flow_block cfg tuple tp ssthresh skb_len tstamp flow s
        else s
  else s

/-- `jtcp_done` (`jprobe.c:214-305`).  After the port filter, the table
lock is taken with a blocking `spin_lock` (`jprobe.c:258`): under the
sequential model the handler waits any sweep out and then proceeds, so
the `lock_busy` oracle does not alter its behaviour.  A missing flow is a
benign no-op; a present flow gets the cumulative-byte update, one record
with the `UINT16_MAX` length sentinel is written (interval and
window-change gates are not consulted), `reset_flows` is counted, and the
flow is unlinked and freed.  `tcp_hash_flow_free` lives in a file not
under `src/`; modelled from the spec: the global atomic flow counter
(§4.1) decrements when a flow is destroyed. -/
def jtcp_done (cfg : Config) (lock_busy : Bool) (tuple : TcpTuple)
    (tp : TcpSockSnap) (ssthresh : Nat) (tstamp : Nat)
    (s : ProbeState) : ProbeState :=
  if cfg.port = 0 ∨ tuple.dport = cfg.port ∨ tuple.sport = cfg.port then
    match tcp_flow_find tuple s.flows with
    | none => s
    | some flow =>
      let flow := update_cumulative_bytes flow tp.snd_nxt
      let cumulative_bytes := flow.cumulative_bytes
      let s := { s with flows := replace_flow tuple flow s.flows }
      let s := { s with stat :=
          { s.stat with reset_flows := s.stat.reset_flows + 1 } }
      let s := write_flow cfg tuple tp tstamp cumulative_bytes UINT16_MAX
          ssthresh flow.first_seq_num s
      { s with
        flows := s.flows.filter (fun f => decide (f.tuple ≠ tuple))
        flow_count := s.flow_count - 1 }
  else s

/-- Iterated producer: `push_seq i n s` performs `n` successive
`write_flow` calls (as successive events would, each under the ring
lock), giving the `j`-th pushed record the distinguishing running total
`j` so that retained records can be told apart. -/
def push_seq (cfg : Config) (tuple : TcpTuple) (tp : TcpSockSnap)
    (tstamp len ssth fs : Nat) : Nat → Nat → ProbeState → ProbeState
  | _, 0, s => s
  | i, Nat.succ n, s =>
      push_seq cfg tuple tp tstamp len ssth fs (i + 1) n
        (write_flow cfg tuple tp tstamp i len ssth fs s)

/-- Folding the cumulative-byte update over a list of observed sequence
numbers: the evolution of one flow's byte accounting over its processed
observation and close events. -/
def cum_trace (flow : TcpHashFlow) (xs : List Nat) : TcpHashFlow :=
  xs.foldl update_cumulative_bytes flow

/-! ## Concrete scenario data -/

/-- A sample flow identity. -/
def t1 : TcpTuple := ⟨1, 2, 33000, 80⟩

/-- A second, distinct flow identity. -/
def t2 : TcpTuple := ⟨3, 4, 44000, 80⟩

/-- A socket snapshot with the given next-sequence number and congestion
window, all other fields fixed benign values. -/
def snap (sn cw : Nat) : TcpSockSnap :=
  { snd_nxt := sn, snd_una := 0, snd_cwnd := cw, snd_wnd := 10, srtt_us := 8000,
    rttvar_us := 800, lost_out := 0, total_retrans := 0, packets_out := 1, frto := 0,
    rcv_nxt := 0, copied_seq := 0, write_seq := 0, sk_state_listen := false,
    sk_ack_backlog := 0, sk_max_ack_backlog := 0 }

/-- All-zero statistics bank, the state at module load. -/
def stat0 : TcpprobeStat := ⟨0, 0, 0, 0⟩

/-- The module state right after initialization: empty ring, empty table. -/
def state0 : ProbeState :=
  { log := [], head := 0, tail := 0, lastcwnd := 0, flows := [],
    flow_count := 0, stat := stat0 }

/-- Configuration with full-capture on and a 16-slot ring. -/
def cfg0 : Config := { port := 0, full := true, probetime := 10, maxflows := 0, bufsize := 16 }

/-- Configuration with full-capture on, `probetime` 1000 ms, 16-slot ring. -/
def cfg2 : Config := { port := 0, full := true, probetime := 1000, maxflows := 0, bufsize := 16 }

/-- Configuration with a 4-slot ring. -/
def cfg4 : Config := { port := 0, full := true, probetime := 0, maxflows := 0, bufsize := 4 }

/-- Configuration with full-capture off (the change gate is live). -/
def cfg9 : Config := { port := 0, full := false, probetime := 1000, maxflows := 0, bufsize := 16 }

/-- A tracked flow for identity `t1` that last sampled at time 0 with
stored sequence number 100. -/
def flow2 : TcpHashFlow :=
  { tuple := t1, tstamp := 0, first_seq_num := 100, last_seq_num := 100,
    cumulative_bytes := 0 }

/-- A state tracking exactly `flow2`. -/
def s2 : ProbeState := { state0 with flows := [flow2], flow_count := 1 }

/-- A tracked flow for the second identity `t2`. -/
def flow9 : TcpHashFlow :=
  { tuple := t2, tstamp := 0, first_seq_num := 5, last_seq_num := 5,
    cumulative_bytes := 0 }

/-- A state tracking the two flows `flow2` (identity `t1`) and `flow9`
(identity `t2`). -/
def s9 : ProbeState :=
  { state0 with flows := [flow2, flow9], flow_count := 2 }

/-- The state after a record for identity `t1` (congestion window 10) has
gone through `write_flow` on `s9`: in particular `lastcwnd = 10` now,
set by a write attempt for the *other* flow. -/
def s10 : ProbeState := write_flow cfg9 t1 (snap 500 10) 3 400 50 7 100 s9

/-- A state whose 4-slot ring is exhausted (3 records pushed, head one
slot short of lapping the tail), so that `tcp_probe_avail ≤ 1` and the
next push is refused. -/
def s_ring_full : ProbeState := push_seq cfg4 t1 (snap 0 10) 0 50 0 0 0 3 state0

/-! ## Helper lemmas -/

theorem ucb_last_seq (flow : TcpHashFlow) (x : Nat) :
    (update_cumulative_bytes flow x).last_seq_num = x := rfl

theorem ucb_tuple (flow : TcpHashFlow) (x : Nat) :
    (update_cumulative_bytes flow x).tuple = flow.tuple := by
  unfold update_cumulative_bytes
  dsimp only
  split
  · rfl
  · split <;> rfl

theorem ucb_first_seq (flow : TcpHashFlow) (x : Nat) :
    (update_cumulative_bytes flow x).first_seq_num = flow.first_seq_num := by
  unfold update_cumulative_bytes
  dsimp only
  split
  · rfl
  · split <;> rfl

theorem ucb_tstamp (flow : TcpHashFlow) (x : Nat) :
    (update_cumulative_bytes flow x).tstamp = flow.tstamp := by
  unfold update_cumulative_bytes
  dsimp only
  split
  · rfl
  · split <;> rfl

theorem replace_flow_of_not_mem (tuple : TcpTuple) (f : TcpHashFlow)
    (l : List TcpHashFlow) (h : ∀ x ∈ l, ¬ x.tuple = tuple) :
    replace_flow tuple f l = l := by
  induction l with
  | nil => rfl
  | cons a tl ih =>
    simp only [replace_flow, List.map_cons]
    rw [if_neg (h a (List.mem_cons_self a tl))]
    have htl := ih (fun x hx => h x (List.mem_cons_of_mem a hx))
    simp only [replace_flow] at htl
    rw [htl]

theorem replace_flow_of_find_none (tuple : TcpTuple) (f : TcpHashFlow)
    (l : List TcpHashFlow) (h : tcp_flow_find tuple l = none) :
    replace_flow tuple f l = l := by
  apply replace_flow_of_not_mem
  intro x hx
  unfold tcp_flow_find at h
  rw [List.find?_eq_none] at h
  have := h x hx
  simpa using this

theorem replace_flow_twice (tuple : TcpTuple) (f1 f2 : TcpHashFlow)
    (h : f1.tuple = tuple) (l : List TcpHashFlow) :
    replace_flow tuple f2 (replace_flow tuple f1 l) = replace_flow tuple f2 l := by
  unfold replace_flow
  rw [List.map_map]
  congr 1
  funext x
  by_cases hx : x.tuple = tuple <;> simp [Function.comp, hx, h]

theorem tcp_flow_find_filter_ne (tuple : TcpTuple) (l : List TcpHashFlow) :
    tcp_flow_find tuple (l.filter (fun f => decide (f.tuple ≠ tuple))) = none := by
  unfold tcp_flow_find
  rw [List.find?_eq_none]
  intro x hx
  rw [List.mem_filter] at hx
  simpa using hx.2

theorem find_some_tuple (tuple : TcpTuple) (l : List TcpHashFlow)
    (flow : TcpHashFlow) (h : tcp_flow_find tuple l = some flow) :
    flow.tuple = tuple := by
  unfold tcp_flow_find at h
  have := List.find?_some h
  simpa using this

theorem write_flow_of_avail (cfg : Config) (tuple : TcpTuple) (tp : TcpSockSnap)
    (tstamp cum len ssth fs : Nat) (s : ProbeState)
    (h : 1 < tcp_probe_avail s cfg.bufsize) :
    write_flow cfg tuple tp tstamp cum len ssth fs s =
      { s with
        log := s.log ++ [mk_tcp_log tuple tp tstamp cum len ssth fs]
        head := (s.head + 1) % cfg.bufsize
        lastcwnd := tp.snd_cwnd } := by
  unfold write_flow
  rw [if_pos h]

theorem write_flow_of_full (cfg : Config) (tuple : TcpTuple) (tp : TcpSockSnap)
    (tstamp cum len ssth fs : Nat) (s : ProbeState)
    (h : ¬ 1 < tcp_probe_avail s cfg.bufsize) :
    write_flow cfg tuple tp tstamp cum len ssth fs s =
      { s with
        stat := { s.stat with ack_drop_ring_full := s.stat.ack_drop_ring_full + 1 }
        lastcwnd := tp.snd_cwnd } := by
  unfold write_flow
  rw [if_neg h]

theorem write_flow_flows (cfg : Config) (tuple : TcpTuple) (tp : TcpSockSnap)
    (tstamp cum len ssth fs : Nat) (s : ProbeState) :
    (write_flow cfg tuple tp tstamp cum len ssth fs s).flows = s.flows := by
  unfold write_flow
  dsimp only
  split <;> rfl

theorem write_flow_flow_count (cfg : Config) (tuple : TcpTuple) (tp : TcpSockSnap)
    (tstamp cum len ssth fs : Nat) (s : ProbeState) :
    (write_flow cfg tuple tp tstamp cum len ssth fs s).flow_count = s.flow_count := by
  unfold write_flow
  dsimp only
  split <;> rfl

theorem write_flow_conn_limit (cfg : Config) (tuple : TcpTuple) (tp : TcpSockSnap)
    (tstamp cum len ssth fs : Nat) (s : ProbeState) :
    (write_flow cfg tuple tp tstamp cum len ssth fs s).stat.conn_maxflow_limit =
      s.stat.conn_maxflow_limit := by
  unfold write_flow
  dsimp only
  split <;> rfl

theorem avail_of_tail_zero (C : Nat) (s : ProbeState) (ht : s.tail = 0)
    (hh : s.head < C) : tcp_probe_avail s C = C - s.head := by
  unfold tcp_probe_avail tcp_probe_used
  rw [ht, Nat.zero_mod, Nat.sub_zero, Nat.add_mod_right, Nat.mod_eq_of_lt hh]

/-! ## Claim theorems -/

/-- C1: the spec's cumulative-byte rule takes `M = 2^32` and, for
`new < last`, adds `(M − last) + new`.  The code's first two cases match
the spec, but in the wraparound case it adds `(UINT32_MAX − last) + new =
(M − 1 − last) + new`, one byte short: at `last = 5`, `new = 3`,
`cumulativeBytes = 0` the code produces 4294967293 where the spec's rule
requires `(2^32 − 5) + 3 = 4294967294`. -/
theorem C1_wraparound_off_by_one :
    (update_cumulative_bytes
        { tuple := t1, tstamp := 0, first_seq_num := 0, last_seq_num := 5,
          cumulative_bytes := 0 } 3).cumulative_bytes = 4294967293 ∧
    (4294967296 - 5) + 3 = 4294967294 ∧ (4294967293 : Nat) ≠ 4294967294 := by
  decide

/-- C2 counterexample: an observation processed for a tracked flow (port
filter passed — `port = 0` — and the table lock acquired) whose sequence
number 999 differs from the stored 100, but which arrives 1 ms after the
last sample with `probetime = 1000` ms: the handler leaves the state,
including the flow's `cumulative_bytes` and `last_seq_num`, entirely
unchanged, so the updates are *not* applied when the sampling decision is
not to emit. -/
theorem C2_counterexample :
    tcp_flow_find t1 s2.flows = some flow2 ∧
    (snap 999 10).snd_nxt ≠ flow2.last_seq_num ∧
    jtcp_rcv_established cfg2 false t1 (snap 999 10) 0 50 1000000 s2 = s2 := by
  decide

/-- C2 (amended): for an observation processed for an already-tracked
flow, the cumulative-byte and `last_seq_num` updates are applied exactly
when the interval gate selects the event for writing: if less than
`probetime` ms elapsed since the flow's stored timestamp nothing at all
changes, and otherwise the flow in the table receives the timestamp
refresh and the `update_cumulative_bytes` update (even if the ring then
drops the record). -/
theorem C2_update_only_when_selected (cfg : Config) (tuple : TcpTuple)
    (tp : TcpSockSnap) (ssth len tstamp : Nat) (s : ProbeState)
    (flow : TcpHashFlow)
    (hgate : (cfg.port = 0 ∨ tuple.dport = cfg.port ∨ tuple.sport = cfg.port) ∧
      (cfg.full = true ∨ tp.snd_cwnd ≠ s.lastcwnd))
    (hfind : tcp_flow_find tuple s.flows = some flow) :
    ((tstamp - flow.tstamp) / 1000000 < cfg.probetime →
      jtcp_rcv_established cfg false tuple tp ssth len tstamp s = s) ∧
    (cfg.probetime ≤ (tstamp - flow.tstamp) / 1000000 →
      (jtcp_rcv_established cfg false tuple tp ssth len tstamp s).flows =
        replace_flow tuple
          (update_cumulative_bytes { flow with tstamp := tstamp } tp.snd_nxt)
          s.flows) := by
  have htup : flow.tuple = tuple := find_some_tuple tuple s.flows flow hfind
  constructor
  · intro hlt
    unfold jtcp_rcv_established
    rw [if_pos hgate]
    simp only [Bool.false_eq_true, if_false, hfind]
    rw [if_neg (by omega)]
  · intro hge
    unfold jtcp_rcv_established
    rw [if_pos hgate]
    simp only [Bool.false_eq_true, if_false, hfind]
    rw [if_pos hge]
    unfold should_write_flow_block
    rw [write_flow_flows]
    dsimp only
    rw [replace_flow_twice]
    exact htup

/-- Witness for `C2_update_only_when_selected`: the hypotheses and the
interval-gated branch hold at the concrete state `s2`. -/
theorem C2_update_only_when_selected_witness :
    (((cfg2.port = 0 ∨ t1.dport = cfg2.port ∨ t1.sport = cfg2.port) ∧
      (cfg2.full = true ∨ (snap 999 10).snd_cwnd ≠ s2.lastcwnd)) ∧
     tcp_flow_find t1 s2.flows = some flow2 ∧
     (1000000 - flow2.tstamp) / 1000000 < cfg2.probetime) ∧
    jtcp_rcv_established cfg2 false t1 (snap 999 10) 0 50 1000000 s2 = s2 :=
  ⟨⟨by decide, by decide, by decide⟩,
   (C2_update_only_when_selected cfg2 t1 (snap 999 10) 0 50 1000000 s2 flow2
      (by decide) (by decide)).1 (by decide)⟩

/-- C3 counterexample: the very first observation of identity `t1` on an
empty table (admission unlimited, gates passed) creates the flow but also
*emits*: the ring, empty before, holds one record afterwards — the code
sets `should_write_flow = 1` in the creation branch (`jprobe.c:376`), so
"emits no record for that event" fails. -/
theorem C3_counterexample :
    tcp_flow_find t1 state0.flows = none ∧
    state0.log.length = 0 ∧
    (jtcp_rcv_established cfg0 false t1 (snap 100 10) 0 50 5 state0).log.length = 1 := by
  decide

/-- C3 (amended): the first observation of an unseen identity (gates
passed, admission not rejected) creates the flow state — recording
`first_seq_num = tp.snd_nxt` and the event timestamp — and additionally
pushes one record for that event (given ring space), built from the
freshly created flow after its cumulative-byte update. -/
theorem C3_first_observation (cfg : Config) (tuple : TcpTuple) (tp : TcpSockSnap)
    (ssth len tstamp : Nat) (s : ProbeState)
    (hgate : (cfg.port = 0 ∨ tuple.dport = cfg.port ∨ tuple.sport = cfg.port) ∧
      (cfg.full = true ∨ tp.snd_cwnd ≠ s.lastcwnd))
    (hfind : tcp_flow_find tuple s.flows = none)
    (hadm : ¬ (cfg.maxflows > 0 ∧ s.flow_count ≥ cfg.maxflows))
    (havail : 1 < tcp_probe_avail s cfg.bufsize) :
    jtcp_rcv_established cfg false tuple tp ssth len tstamp s =
      { s with
        flows := update_cumulative_bytes (new_flow tuple tstamp tp.snd_nxt)
            tp.snd_nxt :: s.flows
        flow_count := s.flow_count + 1
        log := s.log ++ [mk_tcp_log tuple tp tstamp
          (update_cumulative_bytes (new_flow tuple tstamp tp.snd_nxt)
              tp.snd_nxt).cumulative_bytes
          len ssth
          (update_cumulative_bytes (new_flow tuple tstamp tp.snd_nxt)
              tp.snd_nxt).first_seq_num]
        head := (s.head + 1) % cfg.bufsize
        lastcwnd := tp.snd_cwnd } ∧
    (update_cumulative_bytes (new_flow tuple tstamp tp.snd_nxt)
        tp.snd_nxt).first_seq_num = tp.snd_nxt ∧
    (update_cumulative_bytes (new_flow tuple tstamp tp.snd_nxt)
        tp.snd_nxt).tstamp = tstamp := by
  refine ⟨?_, ucb_first_seq _ _, ucb_tstamp _ _⟩
  have hrepl : replace_flow tuple
      (update_cumulative_bytes (new_flow tuple tstamp tp.snd_nxt) tp.snd_nxt)
      (new_flow tuple tstamp tp.snd_nxt :: s.flows) =
      update_cumulative_bytes (new_flow tuple tstamp tp.snd_nxt) tp.snd_nxt ::
        s.flows := by
    unfold replace_flow
    rw [List.map_cons,
      if_pos (show (new_flow tuple tstamp tp.snd_nxt).tuple = tuple from rfl)]
    have hrest := replace_flow_of_find_none tuple
      (update_cumulative_bytes (new_flow tuple tstamp tp.snd_nxt) tp.snd_nxt)
      s.flows hfind
    unfold replace_flow at hrest
    rw [hrest]
  unfold jtcp_rcv_established
  rw [if_pos hgate]
  simp only [Bool.false_eq_true, if_false, hfind]
  rw [if_neg hadm]
  simp only [should_write_flow_block]
  rw [hrepl, write_flow_of_avail]
  exact havail

/-- Witness for `C3_first_observation` at the empty initial state. -/
theorem C3_first_observation_witness :
    (((cfg0.port = 0 ∨ t1.dport = cfg0.port ∨ t1.sport = cfg0.port) ∧
      (cfg0.full = true ∨ (snap 100 10).snd_cwnd ≠ state0.lastcwnd)) ∧
     tcp_flow_find t1 state0.flows = none ∧
     ¬ (cfg0.maxflows > 0 ∧ state0.flow_count ≥ cfg0.maxflows) ∧
     1 < tcp_probe_avail state0 cfg0.bufsize) ∧
    (jtcp_rcv_established cfg0 false t1 (snap 100 10) 0 50 5 state0 =
      { state0 with
        flows := update_cumulative_bytes (new_flow t1 5 (snap 100 10).snd_nxt)
            (snap 100 10).snd_nxt :: state0.flows
        flow_count := state0.flow_count + 1
        log := state0.log ++ [mk_tcp_log t1 (snap 100 10) 5
          (update_cumulative_bytes (new_flow t1 5 (snap 100 10).snd_nxt)
              (snap 100 10).snd_nxt).cumulative_bytes
          50 0
          (update_cumulative_bytes (new_flow t1 5 (snap 100 10).snd_nxt)
              (snap 100 10).snd_nxt).first_seq_num]
        head := (state0.head + 1) % cfg0.bufsize
        lastcwnd := (snap 100 10).snd_cwnd } ∧
     (update_cumulative_bytes (new_flow t1 5 (snap 100 10).snd_nxt)
        (snap 100 10).snd_nxt).first_seq_num = (snap 100 10).snd_nxt ∧
     (update_cumulative_bytes (new_flow t1 5 (snap 100 10).snd_nxt)
        (snap 100 10).snd_nxt).tstamp = 5) :=
  ⟨⟨by decide, by decide, by decide, by decide⟩,
   C3_first_observation cfg0 t1 (snap 100 10) 0 50 5 state0
     (by decide) (by decide) (by decide) (by decide)⟩

/-- C4: a close event passing the port filter on an identity present in
the table emits exactly one terminal record — regardless of the interval
and window-change gates, which is expressed by quantifying over arbitrary
`s.lastcwnd` and arbitrary flow timestamps and never hypothesising them —
with segment length the reserved sentinel `UINT16_MAX`; the flow is then
removed from the table (and the flow counter decremented), and
`reset_flows` counts the close.  A close event for an identity not in the
table is a benign no-op: the state is returned unchanged. -/
theorem C4_close_event (cfg : Config) (b : Bool) (tuple : TcpTuple)
    (tp : TcpSockSnap) (ssth tstamp : Nat) (s : ProbeState) (flow : TcpHashFlow)
    (hport : cfg.port = 0 ∨ tuple.dport = cfg.port ∨ tuple.sport = cfg.port) :
    (tcp_flow_find tuple s.flows = none →
      jtcp_done cfg b tuple tp ssth tstamp s = s) ∧
    (tcp_flow_find tuple s.flows = some flow →
      1 < tcp_probe_avail s cfg.bufsize →
      (jtcp_done cfg b tuple tp ssth tstamp s).log =
        s.log ++ [mk_tcp_log tuple tp tstamp
          (update_cumulative_bytes flow tp.snd_nxt).cumulative_bytes
          UINT16_MAX ssth flow.first_seq_num] ∧
      (mk_tcp_log tuple tp tstamp
          (update_cumulative_bytes flow tp.snd_nxt).cumulative_bytes
          UINT16_MAX ssth flow.first_seq_num).length = UINT16_MAX ∧
      tcp_flow_find tuple (jtcp_done cfg b tuple tp ssth tstamp s).flows = none ∧
      (jtcp_done cfg b tuple tp ssth tstamp s).stat.reset_flows =
        s.stat.reset_flows + 1 ∧
      (jtcp_done cfg b tuple tp ssth tstamp s).flow_count = s.flow_count - 1) := by
  constructor
  · intro hfind
    unfold jtcp_done
    rw [if_pos hport]
    simp only [hfind]
  · intro hfind havail
    unfold jtcp_done
    rw [if_pos hport]
    simp only [hfind]
    rw [ucb_first_seq, write_flow_of_avail]
    · refine ⟨rfl, rfl, tcp_flow_find_filter_ne tuple _, rfl, rfl⟩
    · exact havail

/-- Witness for `C4_close_event`: both branches instantiated — the
benign no-op on the empty table `state0` and the terminal emission on
`s2` (which tracks `flow2`). -/
theorem C4_close_event_witness :
    ((cfg2.port = 0 ∨ t1.dport = cfg2.port ∨ t1.sport = cfg2.port) ∧
     tcp_flow_find t1 state0.flows = none ∧
     tcp_flow_find t1 s2.flows = some flow2 ∧
     1 < tcp_probe_avail s2 cfg2.bufsize) ∧
    jtcp_done cfg2 false t1 (snap 999 10) 0 7 state0 = state0 ∧
    ((jtcp_done cfg2 false t1 (snap 999 10) 0 7 s2).log =
        s2.log ++ [mk_tcp_log t1 (snap 999 10) 7
          (update_cumulative_bytes flow2 (snap 999 10).snd_nxt).cumulative_bytes
          UINT16_MAX 0 flow2.first_seq_num] ∧
      (mk_tcp_log t1 (snap 999 10) 7
          (update_cumulative_bytes flow2 (snap 999 10).snd_nxt).cumulative_bytes
          UINT16_MAX 0 flow2.first_seq_num).length = UINT16_MAX ∧
      tcp_flow_find t1 (jtcp_done cfg2 false t1 (snap 999 10) 0 7 s2).flows = none ∧
      (jtcp_done cfg2 false t1 (snap 999 10) 0 7 s2).stat.reset_flows =
        s2.stat.reset_flows + 1 ∧
      (jtcp_done cfg2 false t1 (snap 999 10) 0 7 s2).flow_count =
        s2.flow_count - 1) :=
  ⟨⟨by decide, by decide, by decide, by decide⟩,
   (C4_close_event cfg2 false t1 (snap 999 10) 0 7 state0 flow2 (by decide)).1
     (by decide),
   (C4_close_event cfg2 false t1 (snap 999 10) 0 7 s2 flow2 (by decide)).2
     (by decide) (by decide)⟩

theorem push_seq_fill (cfg : Config) (tuple : TcpTuple) (tp : TcpSockSnap)
    (tstamp len ssth fs : Nat) :
    ∀ (n i : Nat) (s : ProbeState), s.tail = 0 → s.head = s.log.length →
      s.head + n + 1 ≤ cfg.bufsize →
      (push_seq cfg tuple tp tstamp len ssth fs i n s).log =
          s.log ++ (List.range' i n).map
            (fun j => mk_tcp_log tuple tp tstamp j len ssth fs) ∧
      (push_seq cfg tuple tp tstamp len ssth fs i n s).head = s.head + n ∧
      (push_seq cfg tuple tp tstamp len ssth fs i n s).tail = 0 ∧
      (push_seq cfg tuple tp tstamp len ssth fs i n s).stat = s.stat := by
  intro n
  induction n with
  | zero =>
    intro i s h1 h2 h3
    simp [push_seq, h1]
  | succ n ih =>
    intro i s h1 h2 h3
    have hh : s.head < cfg.bufsize := by omega
    have hav : 1 < tcp_probe_avail s cfg.bufsize := by
      rw [avail_of_tail_zero cfg.bufsize s h1 hh]
      omega
    have hmod : (s.head + 1) % cfg.bufsize = s.head + 1 :=
      Nat.mod_eq_of_lt (by omega)
    rw [push_seq, write_flow_of_avail cfg tuple tp tstamp i len ssth fs s hav,
      hmod]
    obtain ⟨ha, hb, hc, hd⟩ := ih (i + 1)
      { s with
        log := s.log ++ [mk_tcp_log tuple tp tstamp i len ssth fs]
        head := s.head + 1
        lastcwnd := tp.snd_cwnd }
      h1 (by simp [h2]) (by simp; omega)
    refine ⟨?_, ?_, hc, hd⟩
    · rw [ha]
      simp [List.range'_succ]
    · rw [hb]
      simp
      omega

theorem push_seq_reject (cfg : Config) (tuple : TcpTuple) (tp : TcpSockSnap)
    (tstamp len ssth fs : Nat) :
    ∀ (n i : Nat) (s : ProbeState), s.tail = 0 → s.head + 1 = cfg.bufsize →
      (push_seq cfg tuple tp tstamp len ssth fs i n s).log = s.log ∧
      (push_seq cfg tuple tp tstamp len ssth fs i n s).stat.ack_drop_ring_full =
        s.stat.ack_drop_ring_full + n := by
  intro n
  induction n with
  | zero =>
    intro i s h1 h2
    simp [push_seq]
  | succ n ih =>
    intro i s h1 h2
    have hh : s.head < cfg.bufsize := by omega
    have hav : ¬ 1 < tcp_probe_avail s cfg.bufsize := by
      rw [avail_of_tail_zero cfg.bufsize s h1 hh]
      omega
    rw [push_seq, write_flow_of_full cfg tuple tp tstamp i len ssth fs s hav]
    obtain ⟨ha, hb⟩ := ih (i + 1)
      { s with
        stat := { s.stat with ack_drop_ring_full := s.stat.ack_drop_ring_full + 1 }
        lastcwnd := tp.snd_cwnd }
      h1 h2
    refine ⟨ha, ?_⟩
    rw [hb]
    simp
    omega

theorem push_seq_add (cfg : Config) (tuple : TcpTuple) (tp : TcpSockSnap)
    (tstamp len ssth fs : Nat) :
    ∀ (a b i : Nat) (s : ProbeState),
      push_seq cfg tuple tp tstamp len ssth fs i (a + b) s =
        push_seq cfg tuple tp tstamp len ssth fs (i + a) b
          (push_seq cfg tuple tp tstamp len ssth fs i a s) := by
  intro a
  induction a with
  | zero =>
    intro b i s
    simp [push_seq]
  | succ a ih =>
    intro b i s
    have he : a + 1 + b = (a + b) + 1 := by omega
    rw [he, push_seq, push_seq, ih]
    have he2 : i + 1 + a = i + (a + 1) := by omega
    rw [he2]

/-- C5 counterexample: pushing `N = 5` records into a ring of capacity
`C = 4` with no concurrent drain retains 3 records with 2 counted drops —
not the claimed `C = 4` retained and `N − C = 1` drops.  (The push gate
`tcp_probe_avail > 1` refuses once a single free slot remains, so at most
`C − 1` slots ever fill.) -/
theorem C5_counterexample :
    (push_seq cfg4 t1 (snap 0 10) 0 50 0 0 0 5 state0).log.length = 3 ∧
    (push_seq cfg4 t1 (snap 0 10) 0 50 0 0 0 5 state0).stat.ack_drop_ring_full = 2 ∧
    ¬ ((push_seq cfg4 t1 (snap 0 10) 0 50 0 0 0 5 state0).log.length = 4 ∧
       (push_seq cfg4 t1 (snap 0 10) 0 50 0 0 0 5 state0).stat.ack_drop_ring_full
         = 1) := by
  decide

/-- C5 (amended): pushing `N ≥ C` records into a ring of capacity `C ≥ 2`
with no concurrent drain retains exactly `C − 1` records — the earliest
pushed, new arrivals being dropped — with the ring-full drop counter equal
to `N − (C − 1)`; and, at any state, a push is refused exactly when fewer
than 2 slots remain (`tcp_probe_avail ≤ 1`), in which case the record is
dropped and counted and the producer returns normally (only the drop
counter and `lastcwnd` change), while with more than one slot free the
record is appended. -/
theorem C5_ring_drop_policy (C N : Nat) (cfg : Config) (tuple : TcpTuple)
    (tp : TcpSockSnap) (tstamp len ssth fs : Nat)
    (hC : 2 ≤ C) (hN : C ≤ N) (hcfg : cfg.bufsize = C) :
    (push_seq cfg tuple tp tstamp len ssth fs 0 N state0).log =
        (List.range' 0 (C - 1)).map
          (fun j => mk_tcp_log tuple tp tstamp j len ssth fs) ∧
    (push_seq cfg tuple tp tstamp len ssth fs 0 N state0).stat.ack_drop_ring_full
        = N - (C - 1) ∧
    (∀ (cum : Nat) (s2 : ProbeState), tcp_probe_avail s2 cfg.bufsize ≤ 1 →
      write_flow cfg tuple tp tstamp cum len ssth fs s2 =
        { s2 with
          stat := { s2.stat with
            ack_drop_ring_full := s2.stat.ack_drop_ring_full + 1 }
          lastcwnd := tp.snd_cwnd }) ∧
    (∀ (cum : Nat) (s2 : ProbeState), 1 < tcp_probe_avail s2 cfg.bufsize →
      write_flow cfg tuple tp tstamp cum len ssth fs s2 =
        { s2 with
          log := s2.log ++ [mk_tcp_log tuple tp tstamp cum len ssth fs]
          head := (s2.head + 1) % cfg.bufsize
          lastcwnd := tp.snd_cwnd }) := by
  have hsplit : (C - 1) + (N - (C - 1)) = N := by omega
  have hfill := push_seq_fill cfg tuple tp tstamp len ssth fs (C - 1) 0 state0
    rfl rfl (by simp [state0, hcfg]; omega)
  obtain ⟨f1, f2, f3, f4⟩ := hfill
  have hrej := push_seq_reject cfg tuple tp tstamp len ssth fs
    (N - (C - 1)) (0 + (C - 1))
    (push_seq cfg tuple tp tstamp len ssth fs 0 (C - 1) state0)
    f3 (by rw [f2]; simp [state0, hcfg]; omega)
  obtain ⟨r1, r2⟩ := hrej
  constructor
  · rw [← hsplit, push_seq_add, r1, f1]
    simp [state0]
  constructor
  · rw [← hsplit, push_seq_add, r2, f4]
    simp [state0, stat0]
  constructor
  · intro cum s2 h
    exact write_flow_of_full cfg tuple tp tstamp cum len ssth fs s2 (by omega)
  · intro cum s2 h
    exact write_flow_of_avail cfg tuple tp tstamp cum len ssth fs s2 h

/-- Witness for `C5_ring_drop_policy` at `C = 4`, `N = 5`. -/
theorem C5_ring_drop_policy_witness :
    ((2 ≤ 4 ∧ 4 ≤ 5 ∧ cfg4.bufsize = 4) ∧ 1 < tcp_probe_avail state0 cfg4.bufsize) ∧
    (push_seq cfg4 t1 (snap 0 10) 0 50 0 0 0 5 state0).log =
        (List.range' 0 (4 - 1)).map
          (fun j => mk_tcp_log t1 (snap 0 10) 0 j 50 0 0) ∧
    (push_seq cfg4 t1 (snap 0 10) 0 50 0 0 0 5 state0).stat.ack_drop_ring_full
        = 5 - (4 - 1) ∧
    write_flow cfg4 t1 (snap 0 10) 0 9 50 0 0 state0 =
      { state0 with
        log := state0.log ++ [mk_tcp_log t1 (snap 0 10) 0 9 50 0 0]
        head := (state0.head + 1) % cfg4.bufsize
        lastcwnd := (snap 0 10).snd_cwnd } :=
  ⟨⟨by decide, by decide⟩,
   (C5_ring_drop_policy 4 5 cfg4 t1 (snap 0 10) 0 50 0 0
      (by decide) (by decide) (by decide)).1,
   (C5_ring_drop_policy 4 5 cfg4 t1 (snap 0 10) 0 50 0 0
      (by decide) (by decide) (by decide)).2.1,
   (C5_ring_drop_policy 4 5 cfg4 t1 (snap 0 10) 0 50 0 0
      (by decide) (by decide) (by decide)).2.2.2 9 state0 (by decide)⟩

/-- C6: admission control at flow creation.  With `maxflows = K > 0`, an
observation for an unseen identity while `K` or more flows are counted
changes nothing except the `conn_maxflow_limit` rejection counter — in
particular every already-tracked flow, the ring and the flow counter are
untouched (the result is the whole state with only that counter bumped).
With `maxflows = 0` admission is unlimited: the unseen identity is always
created (present in the table afterwards, flow counter incremented,
rejection counter unchanged). -/
theorem C6_admission_bound (cfg : Config) (tuple : TcpTuple) (tp : TcpSockSnap)
    (ssth len tstamp : Nat) (s : ProbeState)
    (hgate : (cfg.port = 0 ∨ tuple.dport = cfg.port ∨ tuple.sport = cfg.port) ∧
      (cfg.full = true ∨ tp.snd_cwnd ≠ s.lastcwnd))
    (hfind : tcp_flow_find tuple s.flows = none) :
    (0 < cfg.maxflows → cfg.maxflows ≤ s.flow_count →
      jtcp_rcv_established cfg false tuple tp ssth len tstamp s =
        { s with stat :=
            { s.stat with conn_maxflow_limit := s.stat.conn_maxflow_limit + 1 } }) ∧
    (cfg.maxflows = 0 →
      (jtcp_rcv_established cfg false tuple tp ssth len tstamp s).flow_count =
        s.flow_count + 1 ∧
      tcp_flow_find tuple
          (jtcp_rcv_established cfg false tuple tp ssth len tstamp s).flows =
        some (update_cumulative_bytes (new_flow tuple tstamp tp.snd_nxt)
          tp.snd_nxt) ∧
      (jtcp_rcv_established cfg false tuple tp ssth len
          tstamp s).stat.conn_maxflow_limit = s.stat.conn_maxflow_limit) := by
  constructor
  · intro hK hcount
    unfold jtcp_rcv_established
    rw [if_pos hgate]
    simp only [Bool.false_eq_true, if_false, hfind]
    rw [if_pos ⟨hK, hcount⟩]
  · intro hK
    unfold jtcp_rcv_established
    rw [if_pos hgate]
    simp only [Bool.false_eq_true, if_false, hfind]
    rw [if_neg (by omega)]
    simp only [should_write_flow_block]
    refine ⟨?_, ?_, ?_⟩
    · rw [write_flow_flow_count]
    · rw [write_flow_flows]
      show tcp_flow_find tuple (replace_flow tuple _ (new_flow tuple tstamp
        tp.snd_nxt :: s.flows)) = _
      unfold replace_flow
      rw [List.map_cons,
        if_pos (show (new_flow tuple tstamp tp.snd_nxt).tuple = tuple from rfl)]
      unfold tcp_flow_find
      rw [List.find?_cons_of_pos]
      simp [ucb_tuple, new_flow]
    · rw [write_flow_conn_limit]

/-- Witness for `C6_admission_bound`: rejection at `maxflows = 1` with
one tracked flow, and unlimited creation at `maxflows = 0`. -/
theorem C6_admission_bound_witness :
    ((((cfg2.port = 0 ∨ t2.dport = cfg2.port ∨ t2.sport = cfg2.port) ∧
       (cfg2.full = true ∨ (snap 100 10).snd_cwnd ≠ s2.lastcwnd)) ∧
      tcp_flow_find t2 s2.flows = none) ∧
     0 < 1 ∧ 1 ≤ s2.flow_count) ∧
    jtcp_rcv_established { cfg2 with maxflows := 1 } false t2 (snap 100 10)
        0 50 5 s2 =
      { s2 with stat :=
          { s2.stat with conn_maxflow_limit := s2.stat.conn_maxflow_limit + 1 } } ∧
    ((jtcp_rcv_established cfg2 false t2 (snap 100 10) 0 50 5 s2).flow_count =
        s2.flow_count + 1 ∧
     tcp_flow_find t2
         (jtcp_rcv_established cfg2 false t2 (snap 100 10) 0 50 5 s2).flows =
       some (update_cumulative_bytes (new_flow t2 5 (snap 100 10).snd_nxt)
         (snap 100 10).snd_nxt) ∧
     (jtcp_rcv_established cfg2 false t2 (snap 100 10) 0 50
         5 s2).stat.conn_maxflow_limit = s2.stat.conn_maxflow_limit) :=
  ⟨⟨⟨by decide, by decide⟩, by decide, by decide⟩,
   (C6_admission_bound { cfg2 with maxflows := 1 } t2 (snap 100 10) 0 50 5 s2
      (by decide) (by decide)).1 (by decide) (by decide),
   (C6_admission_bound cfg2 t2 (snap 100 10) 0 50 5 s2
      (by decide) (by decide)).2 (by decide)⟩

/-- C7 counterexample: with the purge sweep holding the table lock
(`lock_busy = true`), a close event on the tracked flow `flow2` is *not*
skipped: `jtcp_done` uses a blocking `spin_lock` (`jprobe.c:258`), so it
still emits the terminal record and removes the flow, and the contention
counter `ack_drop_purge` stays unchanged — contradicting the claim that
every hot-path entry point acquires the lock non-blockingly and skips on
contention. -/
theorem C7_counterexample :
    jtcp_done cfg2 true t1 (snap 999 10) 0 7 s2 ≠ s2 ∧
    (jtcp_done cfg2 true t1 (snap 999 10) 0 7 s2).stat.ack_drop_purge =
      s2.stat.ack_drop_purge ∧
    (jtcp_done cfg2 true t1 (snap 999 10) 0 7 s2).log.length =
      s2.log.length + 1 ∧
    (jtcp_done cfg2 true t1 (snap 999 10) 0 7 s2).flows.length + 1 =
      s2.flows.length := by
  decide

/-- C7 (amended): only the data-observation handler acquires the table
lock with a non-blocking attempt: on contention it skips the event,
incrementing `ack_drop_purge` and leaving everything else (table, ring,
counters) unchanged.  The close handler acquires the lock blockingly and
processes the event identically whether or not a sweep held the lock at
entry. -/
theorem C7_lock_discipline :
    (∀ (cfg : Config) (tuple : TcpTuple) (tp : TcpSockSnap)
        (ssth len tstamp : Nat) (s : ProbeState),
      ((cfg.port = 0 ∨ tuple.dport = cfg.port ∨ tuple.sport = cfg.port) ∧
        (cfg.full = true ∨ tp.snd_cwnd ≠ s.lastcwnd)) →
      jtcp_rcv_established cfg true tuple tp ssth len tstamp s =
        { s with stat :=
            { s.stat with ack_drop_purge := s.stat.ack_drop_purge + 1 } }) ∧
    (∀ (cfg : Config) (b1 b2 : Bool) (tuple : TcpTuple) (tp : TcpSockSnap)
        (ssth tstamp : Nat) (s : ProbeState),
      jtcp_done cfg b1 tuple tp ssth tstamp s =
        jtcp_done cfg b2 tuple tp ssth tstamp s) := by
  constructor
  · intro cfg tuple tp ssth len tstamp s hgate
    unfold jtcp_rcv_established
    rw [if_pos hgate]
    rfl
  · intro cfg b1 b2 tuple tp ssth tstamp s
    rfl

/-- Witness for `C7_lock_discipline`: the contended observation skip and
the contention-blind close at concrete inputs. -/
theorem C7_lock_discipline_witness :
    ((cfg2.port = 0 ∨ t1.dport = cfg2.port ∨ t1.sport = cfg2.port) ∧
     (cfg2.full = true ∨ (snap 999 10).snd_cwnd ≠ s2.lastcwnd)) ∧
    jtcp_rcv_established cfg2 true t1 (snap 999 10) 0 50 1000000 s2 =
      { s2 with stat :=
          { s2.stat with ack_drop_purge := s2.stat.ack_drop_purge + 1 } } ∧
    jtcp_done cfg2 false t1 (snap 999 10) 0 7 s2 =
      jtcp_done cfg2 true t1 (snap 999 10) 0 7 s2 :=
  ⟨by decide,
   C7_lock_discipline.1 cfg2 t1 (snap 999 10) 0 50 1000000 s2 (by decide),
   C7_lock_discipline.2 cfg2 false true t1 (snap 999 10) 0 7 s2⟩

theorem ucb_cum_le (flow : TcpHashFlow) (x : Nat) (hx : x < U32_MOD) :
    (update_cumulative_bytes flow x).cumulative_bytes ≤
      flow.cumulative_bytes + (U32_MOD - 1) := by
  have e1 : UINT32_MAX = 4294967295 := rfl
  have e2 : U32_MOD = 4294967296 := rfl
  unfold update_cumulative_bytes
  dsimp only
  split
  · rename_i h
    calc (flow.cumulative_bytes + (x - flow.last_seq_num)) % U64_MOD
        ≤ flow.cumulative_bytes + (x - flow.last_seq_num) := Nat.mod_le _ _
      _ ≤ flow.cumulative_bytes + (U32_MOD - 1) := by omega
  · split
    · rename_i h1 h2
      calc (flow.cumulative_bytes +
              (UINT32_MAX - flow.last_seq_num + x)) % U64_MOD
          ≤ flow.cumulative_bytes + (UINT32_MAX - flow.last_seq_num + x) :=
            Nat.mod_le _ _
        _ ≤ flow.cumulative_bytes + (U32_MOD - 1) := by omega
    · omega

theorem ucb_mono (flow : TcpHashFlow) (x : Nat) (hx : x < U32_MOD)
    (hcum : flow.cumulative_bytes ≤ U64_MOD - U32_MOD) :
    flow.cumulative_bytes ≤ (update_cumulative_bytes flow x).cumulative_bytes := by
  have e1 : UINT32_MAX = 4294967295 := rfl
  have e2 : U32_MOD = 4294967296 := rfl
  have e3 : U64_MOD = 18446744073709551616 := rfl
  unfold update_cumulative_bytes
  dsimp only
  split
  · rename_i h
    show flow.cumulative_bytes ≤
      (flow.cumulative_bytes + (x - flow.last_seq_num)) % U64_MOD
    rw [Nat.mod_eq_of_lt (by omega)]
    omega
  · split
    · rename_i h1 h2
      show flow.cumulative_bytes ≤
        (flow.cumulative_bytes + (UINT32_MAX - flow.last_seq_num + x)) % U64_MOD
      rw [Nat.mod_eq_of_lt (by omega)]
      omega
    · omega

theorem cum_trace_le (xs : List Nat) :
    ∀ (flow : TcpHashFlow), (∀ x ∈ xs, x < U32_MOD) →
      (cum_trace flow xs).cumulative_bytes ≤
        flow.cumulative_bytes + xs.length * (U32_MOD - 1) := by
  induction xs with
  | nil =>
    intro flow h
    simp [cum_trace]
  | cons x tl ih =>
    intro flow h
    have hx : x < U32_MOD := h x (List.mem_cons_self x tl)
    have h1 := ucb_cum_le flow x hx
    have h2 := ih (update_cumulative_bytes flow x)
      (fun y hy => h y (List.mem_cons_of_mem x hy))
    simp only [cum_trace, List.foldl_cons] at h2 ⊢
    calc (tl.foldl update_cumulative_bytes
            (update_cumulative_bytes flow x)).cumulative_bytes
        ≤ (update_cumulative_bytes flow x).cumulative_bytes +
            tl.length * (U32_MOD - 1) := h2
      _ ≤ flow.cumulative_bytes + (U32_MOD - 1) + tl.length * (U32_MOD - 1) := by
            omega
      _ = flow.cumulative_bytes + (x :: tl).length * (U32_MOD - 1) := by
            simp [List.length_cons, Nat.succ_mul]
            omega

theorem cum_trace_mono (xs : List Nat) :
    ∀ (flow : TcpHashFlow), (∀ x ∈ xs, x < U32_MOD) →
      flow.cumulative_bytes + xs.length * (U32_MOD - 1) ≤ U64_MOD - 1 →
      flow.cumulative_bytes ≤ (cum_trace flow xs).cumulative_bytes := by
  induction xs with
  | nil =>
    intro flow h hb
    simp [cum_trace]
  | cons x tl ih =>
    intro flow h hb
    have e2 : U32_MOD = 4294967296 := rfl
    have e3 : U64_MOD = 18446744073709551616 := rfl
    have hx : x < U32_MOD := h x (List.mem_cons_self x tl)
    rw [List.length_cons, Nat.succ_mul] at hb
    have hstep : flow.cumulative_bytes ≤
        (update_cumulative_bytes flow x).cumulative_bytes :=
      ucb_mono flow x hx (by omega)
    have hgrow := ucb_cum_le flow x hx
    have htl := ih (update_cumulative_bytes flow x)
      (fun y hy => h y (List.mem_cons_of_mem x hy)) (by omega)
    simp only [cum_trace, List.foldl_cons] at htl ⊢
    omega

/-- C8: the cumulative byte counter is monotonically non-decreasing over
any realistic event history.  Both handlers mutate `cumulative_bytes`
only through `update_cumulative_bytes` (`jprobe.c:272-279, 388-395`), so
the value along a flow's lifetime is the fold `cum_trace` of that update
over the observed sequence numbers.  For any trace of 32-bit sequence
numbers from flow creation (`cumulative_bytes = 0`) of length at most
`2^32` — enough that the 64-bit counter cannot wrap, since each event
adds at most `2^32 − 1` — the value after any earlier slice of the trace
is bounded by the value after any longer one. -/
theorem C8_cumulative_monotone (ys zs : List Nat) (flow : TcpHashFlow)
    (hc : flow.cumulative_bytes = 0)
    (hall : ∀ x ∈ ys ++ zs, x < U32_MOD)
    (hlen : ys.length + zs.length ≤ U32_MOD) :
    (cum_trace flow ys).cumulative_bytes ≤
      (cum_trace flow (ys ++ zs)).cumulative_bytes := by
  have hsplit : cum_trace flow (ys ++ zs) = cum_trace (cum_trace flow ys) zs := by
    simp [cum_trace, List.foldl_append]
  rw [hsplit]
  have hys : ∀ x ∈ ys, x < U32_MOD :=
    fun x hx => hall x (List.mem_append_left zs hx)
  have hzs : ∀ x ∈ zs, x < U32_MOD :=
    fun x hx => hall x (List.mem_append_right ys hx)
  have hbound := cum_trace_le ys flow hys
  rw [hc] at hbound
  apply cum_trace_mono zs (cum_trace flow ys) hzs
  have hmul : (ys.length + zs.length) * (U32_MOD - 1) ≤
      U32_MOD * (U32_MOD - 1) := Nat.mul_le_mul_right _ hlen
  have e2 : U32_MOD = 4294967296 := rfl
  have e4 : U32_MOD * (U32_MOD - 1) = 18446744069414584320 := by decide
  have e3 : U64_MOD = 18446744073709551616 := rfl
  rw [e2] at hbound hmul ⊢
  rw [e2] at e4
  omega

/-- Witness for `C8_cumulative_monotone`: the two-event trace of the
spec's end-to-end scenario (sequence numbers 100 then 5100 from a fresh
flow). -/
theorem C8_cumulative_monotone_witness :
    ((new_flow t1 0 0).cumulative_bytes = 0 ∧
     (∀ x ∈ [100] ++ [5100], x < U32_MOD) ∧
     List.length [100] + List.length [5100] ≤ U32_MOD) ∧
    (cum_trace (new_flow t1 0 0) [100]).cumulative_bytes ≤
      (cum_trace (new_flow t1 0 0) ([100] ++ [5100])).cumulative_bytes :=
  ⟨⟨by decide, by decide, by decide⟩,
   C8_cumulative_monotone [100] [5100] (new_flow t1 0 0)
     (by decide) (by decide) (by decide)⟩

/-- C9: sampling gating with full-capture off.  For an observation on an
already-tracked flow, if either the observed congestion window equals the
last written value (`tcp_probe.lastcwnd`) or less than `probetime` ms
elapsed since the flow's stored timestamp, the ring is unchanged — no
record is emitted.  Contrapositively, emission for a subsequent
observation requires both a changed congestion-window value and an
elapsed interval of at least `probetime`; in particular two observations
on one flow separated by less than `probetime` ms with an unchanged
congestion window produce zero emitted records. -/
theorem C9_sampling_gates (cfg : Config) (b : Bool) (tuple : TcpTuple)
    (tp : TcpSockSnap) (ssth len tstamp : Nat) (s : ProbeState)
    (flow : TcpHashFlow)
    (hfull : cfg.full = false)
    (hfind : tcp_flow_find tuple s.flows = some flow)
    (hsup : tp.snd_cwnd = s.lastcwnd ∨
      (tstamp - flow.tstamp) / 1000000 < cfg.probetime) :
    (jtcp_rcv_established cfg b tuple tp ssth len tstamp s).log = s.log := by
  unfold jtcp_rcv_established
  split
  · rename_i hcond
    have hms : (tstamp - flow.tstamp) / 1000000 < cfg.probetime := by
      rcases hsup with hcw | hms
      · exact absurd (hcond.2.resolve_left (by rw [hfull]; decide)) (by
          intro hne
          exact hne hcw)
      · exact hms
    cases b
    · simp only [Bool.false_eq_true, if_false, hfind]
      rw [if_neg (by omega)]
    · rfl
  · rfl

/-- Witness for `C9_sampling_gates`: identity `t2` is tracked in `s9`,
the observed congestion window 0 equals `s9.lastcwnd`, and no record is
emitted. -/
theorem C9_sampling_gates_witness :
    (cfg9.full = false ∧
     tcp_flow_find t2 s9.flows = some flow9 ∧
     ((snap 7 0).snd_cwnd = s9.lastcwnd ∨
       (999 - flow9.tstamp) / 1000000 < cfg9.probetime)) ∧
    (jtcp_rcv_established cfg9 false t2 (snap 7 0) 0 50 999 s9).log = s9.log :=
  ⟨⟨by decide, by decide, by decide⟩,
   C9_sampling_gates cfg9 false t2 (snap 7 0) 0 50 999 s9 flow9
     (by decide) (by decide) (by decide)⟩

/-- C10: the congestion-window change gate is global, not per-flow.
First, `write_flow` stores the socket's `snd_cwnd` into the single
process-wide `tcp_probe.lastcwnd` on *every* call — the store at
`jprobe.c:202` is outside the availability check, so it happens for
dropped records too, witnessed concretely on the exhausted ring
`s_ring_full` where the record is dropped and counted yet `lastcwnd`
becomes 10.  Second, the gate of `jtcp_rcv_established` compares against
that shared value: in `s10`, `lastcwnd = 10` was set by a `write_flow`
for identity `t1`, and a subsequent observation for the *different*
tracked identity `t2` with the same congestion window 10 is suppressed
outright (the state is returned unchanged). -/
theorem C10_global_cwnd_gate :
    (∀ (cfg : Config) (tuple : TcpTuple) (tp : TcpSockSnap)
        (tstamp cum len ssth fs : Nat) (s : ProbeState),
      (write_flow cfg tuple tp tstamp cum len ssth fs s).lastcwnd =
        tp.snd_cwnd) ∧
    ((write_flow cfg4 t2 (snap 900 10) 0 0 50 0 0 s_ring_full).log =
        s_ring_full.log ∧
      (write_flow cfg4 t2 (snap 900 10) 0 0 50 0 0
          s_ring_full).stat.ack_drop_ring_full =
        s_ring_full.stat.ack_drop_ring_full + 1 ∧
      (write_flow cfg4 t2 (snap 900 10) 0 0 50 0 0 s_ring_full).lastcwnd = 10) ∧
    (s10.lastcwnd = 10 ∧
      tcp_flow_find t2 s10.flows = some flow9 ∧
      (snap 7 10).snd_cwnd = 10 ∧
      jtcp_rcv_established cfg9 false t2 (snap 7 10) 0 50 999 s10 = s10) := by
  refine ⟨?_, by decide, by decide⟩
  intro cfg tuple tp tstamp cum len ssth fs s
  rfl

end TcpProbe
